import Mathlib

/-!
Shallow embedding of the generation-status monitor of the results page
component.  The subject is the polling effect installed by the component
mount (the closure `fetchStatus` together with
`pollInterval = setInterval(fetchStatus, 5001)`), the stop handler
`handleStopGeneration`, and the parts of the render tree that gate the stop
confirmation dialog.  React component state becomes an explicit record
(`CState`), the variables captured by the effect closure become session
fields (`Session`), and the asynchronous callbacks become events acting on
the session (`Event`, `step`).

Granularity: each run of `fetchStatus` is split into its synchronous prefix
(`pollStartStep`, everything up to issuing the status request) and its
resolution (`pollResolveStep`, the continuation after the awaited network
calls return), parameterised by the outcomes of the network calls it makes.
Every state mutation of the JS code happens in one of these continuations,
which run atomically on the single JS thread; React batches the `setState`
calls of one continuation into one visible update.  Numbers are modelled as
rationals, strings as `String`; JS truthiness of an optional string is
"present and non-empty", of a number "non-zero".
-/

namespace ResultsMonitor

/-- Payload of a successful `getGenerationStatus` response.  Optional fields
model JSON keys that may be absent; an absent key and an empty string are
both JS-falsy but are distinguished here. -/
structure StatusData where
  status : String
  elapsedTime : Option ℚ
  model : Option String
  searchEngine : Option String
  prompt : Option String
  error : Option String
deriving DecidableEq

/-- Payload of a successful `getGenerationResult` response. -/
structure ResultData where
  result : Option String
  model : Option String
  searchEngine : Option String
  prompt : Option String
deriving DecidableEq

/-- Outcome of one awaited network call: it resolves with a value or rejects
with an error whose `message` is carried along. -/
inductive FetchResult (α : Type) where
  | ok (a : α)
  | err (msg : String)
deriving DecidableEq

/-- Network outcomes consumed by one full run of `fetchStatus`: the status
fetch itself, the result fetch performed when the reported status is
`completed`, and the direct result fetch performed inside the catch handler
when the poll counter is still zero. -/
structure PollOutcome where
  statusRes : FetchResult (Option StatusData)
  resultRes : FetchResult (Option ResultData)
  fallbackRes : FetchResult (Option ResultData)
deriving DecidableEq

/-- The `generationDetails` component state.  `typ` embeds the JS key
`type`; `statusField` embeds the (never updated) `status` key of the default
object. -/
structure Details where
  prompt : String
  model : String
  typ : String
  statusField : String
  searchEngine : Option String
deriving DecidableEq

/-- `defaultGenerationDetails` from the source. -/
def defaultGenerationDetails : Details :=
  { prompt := "Loading prompt...", model := "Loading model...",
    typ := "unknown", statusField := "unknown", searchEngine := none }

/-- The component state of the results page: the `useState` hooks that the
monitor reads or writes.  Presentation-only state (`activeTab`,
`copySuccess`) is omitted; no monitored behaviour reads it. -/
structure CState where
  result : Option String
  loading : Bool
  error : String
  generationStatus : String
  progress : ℚ
  elapsedTime : Int
  stopConfirmOpen : Bool
  stopInProgress : Bool
  generationDetails : Details
deriving DecidableEq

/-- The network operations the monitor can issue, for call counting. -/
inductive NetCall where
  | reloadCall
  | statusCall
  | resultCall
  | stopCall
deriving DecidableEq

/-- A monitor session: the component state plus the variables captured by
the polling effect (`pollCount`, whether the interval handle is still
installed) and bookkeeping for outstanding asynchronous calls, the log of
issued network calls, and console output. -/
structure Session where
  comp : CState
  pollCount : Nat
  intervalActive : Bool
  inFlight : Nat
  stopInFlight : Nat
  netLog : List NetCall
  warnLog : List String
deriving DecidableEq

/-- `Math.round` on a JS number. -/
def jsRound (x : ℚ) : Int := ⌊x + 1 / 2⌋

/-- The simulated progress curve of the still-processing branch:
`Math.min(10 + 80 * (pollCount / 60), 90)`, evaluated at the
already-incremented poll counter. -/
def estimate (pollCount : Nat) : ℚ := min (10 + 80 * ((pollCount : ℚ) / 60)) 90

/-- The polling period, in milliseconds, passed to `setInterval`. -/
def pollIntervalMs : Nat := 5001

/-- The repeated `setGenerationDetails(prev => ...)` update pattern shared by
the status branch, the completed-result branch and the catch fallback:
`model` is merged only when truthy and different from the literal string
`unknown`; `searchEngine` and `prompt` are merged only when truthy. -/
def mergeDetails (dt : Details) (model searchEngine prompt : Option String) : Details :=
  let d1 : Details :=
    match model with
    | some m => if m ≠ "" ∧ m ≠ "unknown" then { dt with model := m } else dt
    | none => dt
  let d2 : Details :=
    match searchEngine with
    | some s => if s ≠ "" then { d1 with searchEngine := some s } else d1
    | none => d1
  match prompt with
  | some p => if p ≠ "" then { d2 with prompt := p } else d2
  | none => d2

/-- The updates applied as soon as `statusData` is truthy: the unconditional
`setGenerationStatus(statusData.status)`, the truthiness-guarded
`setElapsedTime(Math.round(statusData.elapsedTime))`, and the three
descriptive-field merges. -/
def applyStatusData (c : CState) (d : StatusData) : CState :=
  let c1 : CState := { c with generationStatus := d.status }
  let c2 : CState :=
    match d.elapsedTime with
    | some t => if t = 0 then c1 else { c1 with elapsedTime := jsRound t }
    | none => c1
  { c2 with generationDetails := mergeDetails c2.generationDetails d.model d.searchEngine d.prompt }

/-- The fallback message applied to a falsy `statusData.error` in the
server-reported error branch. -/
def serverErrMsg (d : StatusData) : String :=
  match d.error with
  | some e => if e = "" then "An error occurred during generation" else e
  | none => "An error occurred during generation"

/-- Usability of a result payload: the payload is truthy and its `result`
field is truthy (present and non-empty). -/
def usableResult : Option ResultData → Bool
  | none => false
  | some rd => decide (rd.result.getD "" ≠ "")

/-- The body guarded by `if (resultData && resultData.result)` in the
completed branch: store the result, merge descriptive fields from the result
payload, clear the interval and stop the loading indicator. -/
def storeResult (s : Session) (rd : ResultData) : Session :=
  { s with
    comp := { s.comp with
      result := rd.result,
      generationDetails := mergeDetails s.comp.generationDetails rd.model rd.searchEngine rd.prompt,
      loading := false },
    intervalActive := false }

/-- The success path of the first-poll direct fallback inside the catch
handler: additionally forces the status to `completed` and the progress to
100 before halting. -/
def fallbackSuccess (s : Session) (rd : ResultData) : Session :=
  { s with
    comp := { s.comp with
      result := rd.result,
      generationStatus := "completed",
      progress := 100,
      generationDetails := mergeDetails s.comp.generationDetails rd.model rd.searchEngine rd.prompt,
      loading := false },
    intervalActive := false }

/-- The falsy-coalescing of the caught error message. -/
def errText (msg : String) : String := if msg = "" then "Unknown error" else msg

/-- The tail of the catch handler: surface the polling error, clear the
interval and stop the loading indicator.  The displayed status is not
touched here. -/
def finishWithError (s : Session) (msg : String) : Session :=
  { s with
    comp := { s.comp with
      error := "Error checking generation status: " ++ errText msg,
      loading := false },
    intervalActive := false }

/-- The catch handler of `fetchStatus`: log the failure, attempt the direct
result fetch when the poll counter is still zero, and otherwise (or when the
fallback yields nothing usable) surface the error and halt. -/
def catchStep (s : Session) (fb : FetchResult (Option ResultData)) (msg : String) : Session :=
  let s0 : Session := { s with warnLog := s.warnLog ++ ["Error polling status: " ++ msg] }
  if s0.pollCount = 0 then
    let s1 : Session := { s0 with netLog := s0.netLog ++ [NetCall.resultCall] }
    match fb with
    | FetchResult.ok (some rd) =>
        if rd.result.getD "" = "" then finishWithError s1 msg else fallbackSuccess s1 rd
    | FetchResult.ok none => finishWithError s1 msg
    | FetchResult.err m2 =>
        finishWithError
          { s1 with warnLog := s1.warnLog ++ ["Error fetching result directly: " ++ m2] } msg
  else finishWithError s0 msg

/-- Resolution of one outstanding `fetchStatus` invocation: the continuation
after `await getGenerationStatus(id)` (and, where reached, after the awaited
result fetches), parameterised by the network outcomes. -/
def pollResolveStep (s : Session) (o : PollOutcome) : Session :=
  let sr : Session := { s with inFlight := s.inFlight - 1 }
  match o.statusRes with
  | FetchResult.err msg => catchStep sr o.fallbackRes msg
  | FetchResult.ok none => sr
  | FetchResult.ok (some d) =>
      let c : CState := applyStatusData sr.comp d
      if d.status = "completed" then
        let s1 : Session :=
          { sr with comp := { c with progress := 100 },
                    netLog := sr.netLog ++ [NetCall.resultCall] }
        match o.resultRes with
        | FetchResult.err msg => catchStep s1 o.fallbackRes msg
        | FetchResult.ok none => s1
        | FetchResult.ok (some rd) =>
            if rd.result.getD "" = "" then s1 else storeResult s1 rd
      else if d.status = "error" then
        { sr with comp := { c with error := serverErrMsg d, loading := false },
                  intervalActive := false }
      else if d.status = "stopped" then
        { sr with comp := { c with error := "Task has been stopped by user request.",
                                   loading := false },
                  intervalActive := false }
      else
        { sr with comp := { c with progress := estimate (sr.pollCount + 1) },
                  pollCount := sr.pollCount + 1 }

/-- The synchronous prefix of one `fetchStatus` invocation:
`setLoading(true)`, the first-poll `reloadTasks` preamble — whose failure is
caught locally and only written to the console — and issuing the status
request. -/
def pollStartStep (s : Session) (reloadFails : Bool) : Session :=
  let s1 : Session := { s with comp := { s.comp with loading := true } }
  let s2 : Session :=
    if s1.pollCount = 0 then
      let sr : Session := { s1 with netLog := s1.netLog ++ [NetCall.reloadCall] }
      if reloadFails then { sr with warnLog := sr.warnLog ++ ["Failed to reload tasks"] }
      else sr
    else s1
  { s2 with inFlight := s2.inFlight + 1, netLog := s2.netLog ++ [NetCall.statusCall] }

/-- The loading view — the render branch containing the stop button and the
stop confirmation dialog — is currently shown. -/
abbrev loadingViewShown (c : CState) : Prop :=
  c.loading = true ∧ c.generationStatus ≠ "completed"

/-- The confirm button of the stop dialog can fire `handleStopGeneration`:
the dialog is rendered and open, and the button is not disabled by
`stopInProgress`. -/
abbrev stopClickEnabled (s : Session) : Prop :=
  loadingViewShown s.comp ∧ s.comp.stopConfirmOpen = true ∧ s.comp.stopInProgress = false

/-- The events that can act on a session: an interval tick starting a new
`fetchStatus` run, the resolution of an outstanding run, opening and closing
the stop confirmation dialog, clicking its confirm button, and the
resolution of an outstanding `stopTask` request. -/
inductive Event where
  | pollStart (reloadFails : Bool)
  | pollResolve (o : PollOutcome)
  | openStopDialog
  | closeStopDialog
  | stopClick
  | stopResolve (success : Bool) (msg : String)
deriving DecidableEq

/-- One event applied to a session.  Guards reflect the source: ticks fire
only while the interval is installed; resolutions require an outstanding
call; the dialog buttons exist only while the loading view is rendered; the
confirm button is disabled while `stopInProgress` is set; `stopTask`
resolution runs the `then`/`catch` and the shared `finally` of
`handleStopGeneration` — note it does not clear the polling interval. -/
def step (s : Session) : Event → Session
  | Event.pollStart rf => if s.intervalActive then pollStartStep s rf else s
  | Event.pollResolve o => if s.inFlight = 0 then s else pollResolveStep s o
  | Event.openStopDialog =>
      if loadingViewShown s.comp then
        { s with comp := { s.comp with stopConfirmOpen := true } }
      else s
  | Event.closeStopDialog =>
      if loadingViewShown s.comp then
        { s with comp := { s.comp with stopConfirmOpen := false } }
      else s
  | Event.stopClick =>
      if stopClickEnabled s then
        { s with comp := { s.comp with stopInProgress := true },
                 stopInFlight := s.stopInFlight + 1,
                 netLog := s.netLog ++ [NetCall.stopCall] }
      else s
  | Event.stopResolve success msg =>
      if s.stopInFlight = 0 then s
      else
        let sr : Session := { s with stopInFlight := s.stopInFlight - 1 }
        if success then
          { sr with comp := { sr.comp with
              generationStatus := "stopped",
              error := "Task has been stopped by user request.",
              stopConfirmOpen := false, stopInProgress := false } }
        else
          { sr with comp := { sr.comp with
              error := "Failed to stop task: " ++ msg,
              stopConfirmOpen := false, stopInProgress := false } }

/-- The component state at mount time.  The details argument models
`location.state || defaultGenerationDetails`. -/
def initComp (d0 : Details) : CState :=
  { result := none, loading := true, error := "", generationStatus := "generating",
    progress := 0, elapsedTime := 0, stopConfirmOpen := false, stopInProgress := false,
    generationDetails := d0 }

/-- Mounting the page: the effect immediately runs `fetchStatus()` once and
installs the interval. -/
def mountSession (d0 : Details) (reloadFails : Bool) : Session :=
  pollStartStep
    { comp := initComp d0, pollCount := 0, intervalActive := true, inFlight := 0,
      stopInFlight := 0, netLog := [], warnLog := [] } reloadFails

/-- Apply a list of events in order. -/
def run (s : Session) : List Event → Session
  | [] => s
  | e :: es => run (step s e) es

/-- Sessions reachable from some mount. -/
inductive Reachable : Session → Prop where
  | init (d0 : Details) (rf : Bool) : Reachable (mountSession d0 rf)
  | next {s : Session} (e : Event) : Reachable s → Reachable (step s e)

/-- Forget console output, keeping every observable part of the session. -/
def eraseWarnings (s : Session) : Session := { s with warnLog := [] }

/-- Number of stop requests in a call log. -/
def stopCalls : List NetCall → Nat
  | [] => 0
  | NetCall.stopCall :: l => stopCalls l + 1
  | _ :: l => stopCalls l

/-- A status payload carrying only a status string, every optional key
absent. -/
def bareStatus (st : String) : StatusData :=
  { status := st, elapsedTime := none, model := none, searchEngine := none,
    prompt := none, error := none }

/-- A poll outcome whose status fetch succeeds with a bare status payload
and whose (unused) result fetches resolve with nothing. -/
def okStatusPoll (st : String) : PollOutcome :=
  { statusRes := FetchResult.ok (some (bareStatus st)),
    resultRes := FetchResult.ok none, fallbackRes := FetchResult.ok none }

/-- A result payload with no `result` field. -/
def noResultData : ResultData :=
  { result := none, model := none, searchEngine := none, prompt := none }

/-- A result payload carrying only a usable result text. -/
def textResultData (t : String) : ResultData :=
  { result := some t, model := none, searchEngine := none, prompt := none }

/-- A poll outcome reporting `completed` whose result fetch resolves with a
payload that has no `result` field. -/
def completedNoResultPoll : PollOutcome :=
  { statusRes := FetchResult.ok (some (bareStatus "completed")),
    resultRes := FetchResult.ok (some
      { result := none, model := none, searchEngine := none, prompt := none }),
    fallbackRes := FetchResult.ok none }

/-- A poll outcome reporting `completed` whose result fetch resolves with a
usable text. -/
def completedUsablePoll (text : String) : PollOutcome :=
  { statusRes := FetchResult.ok (some (bareStatus "completed")),
    resultRes := FetchResult.ok (some
      { result := some text, model := none, searchEngine := none, prompt := none }),
    fallbackRes := FetchResult.ok none }

/-! ### Helper lemmas -/

theorem estimate_lt_100 (n : Nat) : estimate n < 100 := by
  unfold estimate
  exact lt_of_le_of_lt (min_le_right _ _) (by norm_num)

theorem estimate_mono (n : Nat) : estimate n ≤ estimate (n + 1) := by
  unfold estimate
  push_cast
  have h : ((n : ℚ)) / 60 ≤ ((n : ℚ) + 1) / 60 := by linarith
  exact min_le_min (by linarith) le_rfl

theorem stopCalls_append_stop (l : List NetCall) :
    stopCalls (l ++ [NetCall.stopCall]) = stopCalls l + 1 := by
  induction l with
  | nil => rfl
  | cons a l ih => cases a <;> simp [stopCalls, ih]

theorem applyStatusData_generationStatus (c : CState) (d : StatusData) :
    (applyStatusData c d).generationStatus = d.status := by
  unfold applyStatusData
  cases hd : d.elapsedTime
  all_goals simp [hd]
  split_ifs <;> rfl

theorem applyStatusData_other (c : CState) (d : StatusData) :
    (applyStatusData c d).progress = c.progress ∧
    (applyStatusData c d).result = c.result ∧
    (applyStatusData c d).loading = c.loading ∧
    (applyStatusData c d).error = c.error ∧
    (applyStatusData c d).stopConfirmOpen = c.stopConfirmOpen ∧
    (applyStatusData c d).stopInProgress = c.stopInProgress := by
  unfold applyStatusData
  cases hd : d.elapsedTime
  all_goals simp [hd]
  split_ifs <;> simp

/-! ### Claims -/

/-- Claim C6: the progress estimator is the pure function
`min (10 + 80 * (n / 60)) 90` of the poll count; it is monotone
non-decreasing in the poll count and strictly below 100 everywhere. -/
theorem c6_estimate_monotone_bounded (n : Nat) :
    estimate n ≤ estimate (n + 1) ∧ estimate n < 100 ∧
    estimate n = min (10 + 80 * ((n : ℚ) / 60)) 90 :=
  ⟨estimate_mono n, estimate_lt_100 n, rfl⟩

/-- Claim C1 counterexample: from a fresh mount, open the stop dialog,
confirm the stop, let the stop request succeed, and then let the poll that
has been outstanding since mount resolve with status `generating`.  The
final exposed state is `generating`, not `stopped`: the late poll outcome
overwrites the successful stop. -/
theorem c1_counterexample :
    (run (mountSession defaultGenerationDetails false)
      [Event.openStopDialog, Event.stopClick, Event.stopResolve true "",
       Event.pollResolve (okStatusPoll "generating")]).comp.generationStatus
        = "generating" ∧
    (run (mountSession defaultGenerationDetails false)
      [Event.openStopDialog, Event.stopClick, Event.stopResolve true "",
       Event.pollResolve (okStatusPoll "generating")]).comp.generationStatus
        ≠ "stopped" := by
  decide

/-- Claim C2 counterexample: a tick fires while the mount poll is still
outstanding, so two fetches are in flight; the second resolves with
`stopped`, putting the session in the terminal state `stopped`, after which
the still-outstanding first fetch resolves with `generating` and moves the
session out of the terminal state. -/
theorem c2_counterexample :
    (run (mountSession defaultGenerationDetails false)
      [Event.pollStart false,
       Event.pollResolve (okStatusPoll "stopped")]).comp.generationStatus
        = "stopped" ∧
    (run (mountSession defaultGenerationDetails false)
      [Event.pollStart false,
       Event.pollResolve (okStatusPoll "stopped"),
       Event.pollResolve (okStatusPoll "generating")]).comp.generationStatus
        = "generating" := by
  decide

/-- Claim C3 counterexample: on a fresh mount the poll resolves with status
`completed` while the result fetch returns a payload with no `result`
field.  Polling does continue (the interval stays installed), but the
exposed status is set to `completed` — it does not remain `generating` — the
progress is set to 100, and the poll counter is not incremented. -/
theorem c3_counterexample :
    (run (mountSession defaultGenerationDetails false)
      [Event.pollResolve completedNoResultPoll]).comp.generationStatus = "completed" ∧
    (run (mountSession defaultGenerationDetails false)
      [Event.pollResolve completedNoResultPoll]).comp.generationStatus ≠ "generating" ∧
    (run (mountSession defaultGenerationDetails false)
      [Event.pollResolve completedNoResultPoll]).pollCount = 0 ∧
    (run (mountSession defaultGenerationDetails false)
      [Event.pollResolve completedNoResultPoll]).comp.progress = 100 ∧
    (run (mountSession defaultGenerationDetails false)
      [Event.pollResolve completedNoResultPoll]).intervalActive = true := by
  decide

/-- Claim C8 counterexample: immediately after mounting, one `fetchStatus`
call is outstanding; a timer tick firing at that moment is not a no-op — it
starts a second concurrent fetch, so two network calls are outstanding at
once. -/
theorem c8_counterexample :
    (step (mountSession defaultGenerationDetails false) (Event.pollStart false)).inFlight
      = 2 ∧
    ¬ (step (mountSession defaultGenerationDetails false) (Event.pollStart false)).inFlight
      ≤ 1 := by
  decide

/-- Claim C1 amended: on `requestStop` success the session state is set to
`stopped`, but a still-outstanding poll that later resolves with status
`generating` overwrites the state back to `generating` — the stop does not
take precedence over concurrently-resolving polls. -/
theorem c1_stop_race (s : Session) (d : StatusData)
    (hstop : s.stopInFlight ≠ 0) (hpoll : s.inFlight ≠ 0)
    (hd : d.status = "generating") :
    (step s (Event.stopResolve true "")).comp.generationStatus = "stopped" ∧
    (step (step s (Event.stopResolve true ""))
       (Event.pollResolve
         { statusRes := FetchResult.ok (some d),
           resultRes := FetchResult.ok none,
           fallbackRes := FetchResult.ok none })).comp.generationStatus
      = "generating" := by
  have h1 : step s (Event.stopResolve true "") =
      { s with stopInFlight := s.stopInFlight - 1,
               comp := { s.comp with
                 generationStatus := "stopped",
                 error := "Task has been stopped by user request.",
                 stopConfirmOpen := false, stopInProgress := false } } := by
    simp [step, hstop]
  refine ⟨by rw [h1], ?_⟩
  rw [h1]
  simp only [step]
  rw [if_neg (by simpa using hpoll)]
  simp only [pollResolveStep]
  rw [applyStatusData_generationStatus] at *
  simp [hd, applyStatusData_generationStatus]

/-- Claim C1 amended, witnessed on a concrete session: mount, open the stop
dialog, confirm the stop. -/
theorem c1_stop_race_witness :
    (step (run (mountSession defaultGenerationDetails false)
        [Event.openStopDialog, Event.stopClick])
      (Event.stopResolve true "")).comp.generationStatus = "stopped" ∧
    (step (step (run (mountSession defaultGenerationDetails false)
        [Event.openStopDialog, Event.stopClick]) (Event.stopResolve true ""))
      (Event.pollResolve
        { statusRes := FetchResult.ok (some (bareStatus "generating")),
          resultRes := FetchResult.ok none,
          fallbackRes := FetchResult.ok none })).comp.generationStatus
      = "generating" :=
  c1_stop_race (run (mountSession defaultGenerationDetails false)
      [Event.openStopDialog, Event.stopClick])
    (bareStatus "generating") (by decide) (by decide) rfl

/-- Claim C2 amended: terminal states are one-way only once the session is
quiescent — after polling has been halted (interval cleared, loading
indicator off) with no poll or stop outstanding, no event changes the
session at all.  A poll still outstanding when a terminal state is entered,
or a terminal state entered via stop success (which does not halt polling),
can be overwritten by a later-resolving poll outcome. -/
theorem c2_terminal_quiescent (s : Session) (e : Event)
    (hI : s.intervalActive = false) (hF : s.inFlight = 0) (hS : s.stopInFlight = 0)
    (hL : s.comp.loading = false) : step s e = s := by
  cases e with
  | pollStart rf => simp [step, hI]
  | pollResolve o => simp [step, hF]
  | openStopDialog => simp [step, loadingViewShown, hL]
  | closeStopDialog => simp [step, loadingViewShown, hL]
  | stopClick => simp [step, stopClickEnabled, loadingViewShown, hL]
  | stopResolve success msg => simp [step, hS]

/-- Claim C2 amended, witnessed on the quiescent session produced by a
completing poll: a further tick changes nothing. -/
theorem c2_terminal_quiescent_witness :
    (run (mountSession defaultGenerationDetails false)
        [Event.pollResolve (completedUsablePoll "text")]).intervalActive = false ∧
    step (run (mountSession defaultGenerationDetails false)
        [Event.pollResolve (completedUsablePoll "text")]) (Event.pollStart false)
      = run (mountSession defaultGenerationDetails false)
        [Event.pollResolve (completedUsablePoll "text")] :=
  ⟨by decide,
   c2_terminal_quiescent _ _ (by decide) (by decide) (by decide) (by decide)⟩

/-- Claim C4: the stop operation is idempotent at the session level — the
confirm button is disabled while `stopInProgress` is set, so two stop
invocations in quick succession issue exactly one network stop call, and
invoking stop while a previous stop request is in flight is a no-op. -/
theorem c4_stop_idempotent (s : Session) (h : stopClickEnabled s) :
    stopCalls (step (step s Event.stopClick) Event.stopClick).netLog
      = stopCalls s.netLog + 1 ∧
    step (step s Event.stopClick) Event.stopClick = step s Event.stopClick ∧
    (∀ t : Session, t.comp.stopInProgress = true → step t Event.stopClick = t) := by
  have hs1 : step s Event.stopClick =
      { s with comp := { s.comp with stopInProgress := true },
               stopInFlight := s.stopInFlight + 1,
               netLog := s.netLog ++ [NetCall.stopCall] } := by
    simp [step, h]
  have hnoop : ∀ t : Session, t.comp.stopInProgress = true → step t Event.stopClick = t := by
    intro t ht
    simp [step, stopClickEnabled, loadingViewShown, ht]
  refine ⟨?_, ?_, hnoop⟩
  · rw [hs1, hnoop _ rfl]
    exact stopCalls_append_stop s.netLog
  · rw [hs1]
    exact hnoop _ rfl

/-- Claim C4, witnessed on a concrete session with the stop dialog open. -/
theorem c4_stop_idempotent_witness :
    stopClickEnabled (step (mountSession defaultGenerationDetails false)
      Event.openStopDialog) ∧
    stopCalls (step (step (step (mountSession defaultGenerationDetails false)
          Event.openStopDialog) Event.stopClick) Event.stopClick).netLog
      = stopCalls (step (mountSession defaultGenerationDetails false)
          Event.openStopDialog).netLog + 1 :=
  ⟨by decide, (c4_stop_idempotent _ (by decide)).1⟩

/-- Claim C8 amended: a timer tick during an in-flight fetch is not a no-op
— every tick fired while the interval is installed starts one more
concurrent `fetchStatus` call — and ticks cease only once the interval has
been cleared. -/
theorem c8_tick_starts_new_fetch (s : Session) (rf : Bool)
    (h : s.intervalActive = true) :
    (step s (Event.pollStart rf)).inFlight = s.inFlight + 1 ∧
    (∀ t : Session, t.intervalActive = false → step t (Event.pollStart rf) = t) := by
  constructor
  · simp only [step, h, if_true]
    simp only [pollStartStep]
    split_ifs <;> rfl
  · intro t ht
    simp [step, ht]

/-- Claim C8 amended, witnessed right after mount. -/
theorem c8_tick_starts_new_fetch_witness :
    (mountSession defaultGenerationDetails false).intervalActive = true ∧
    (step (mountSession defaultGenerationDetails false) (Event.pollStart false)).inFlight
      = (mountSession defaultGenerationDetails false).inFlight + 1 :=
  ⟨by decide,
   (c8_tick_starts_new_fetch (mountSession defaultGenerationDetails false) false
      (by decide)).1⟩

/-- Claim C3 amended: when a poll reports `completed` but the result fetch
resolves without a usable result, the session does not halt — no result is
stored, the loading flag and the interval are untouched (so the next poll
still fires on the configured interval) — but the exposed status is set to
`completed` rather than remaining `generating`, the progress is set to 100,
and the poll counter is not incremented. -/
theorem c3_completed_unusable (s : Session) (d : StatusData) (ro : Option ResultData)
    (hin : s.inFlight ≠ 0) (hd : d.status = "completed")
    (hro : usableResult ro = false) :
    (step s (Event.pollResolve
       { statusRes := FetchResult.ok (some d), resultRes := FetchResult.ok ro,
         fallbackRes := FetchResult.ok none })).comp.generationStatus = "completed" ∧
    (step s (Event.pollResolve
       { statusRes := FetchResult.ok (some d), resultRes := FetchResult.ok ro,
         fallbackRes := FetchResult.ok none })).comp.progress = 100 ∧
    (step s (Event.pollResolve
       { statusRes := FetchResult.ok (some d), resultRes := FetchResult.ok ro,
         fallbackRes := FetchResult.ok none })).pollCount = s.pollCount ∧
    (step s (Event.pollResolve
       { statusRes := FetchResult.ok (some d), resultRes := FetchResult.ok ro,
         fallbackRes := FetchResult.ok none })).intervalActive = s.intervalActive ∧
    (step s (Event.pollResolve
       { statusRes := FetchResult.ok (some d), resultRes := FetchResult.ok ro,
         fallbackRes := FetchResult.ok none })).comp.result = s.comp.result ∧
    (step s (Event.pollResolve
       { statusRes := FetchResult.ok (some d), resultRes := FetchResult.ok ro,
         fallbackRes := FetchResult.ok none })).comp.loading = s.comp.loading := by
  have hne : ¬ s.inFlight = 0 := hin
  simp only [step, if_neg hne, pollResolveStep]
  rcases ro with _ | rd
  · simp [hd, applyStatusData_generationStatus, (applyStatusData_other s.comp d).1,
      (applyStatusData_other s.comp d).2.1, (applyStatusData_other s.comp d).2.2.1]
  · have hempty : rd.result.getD "" = "" := by
      have h2 := hro
      simp [usableResult] at h2
      exact h2
    simp [hd, hempty, applyStatusData_generationStatus,
      (applyStatusData_other s.comp d).1, (applyStatusData_other s.comp d).2.1,
      (applyStatusData_other s.comp d).2.2.1]

/-- Claim C3 amended, witnessed on a fresh mount. -/
theorem c3_completed_unusable_witness :
    usableResult (some noResultData) = false ∧
    (step (mountSession defaultGenerationDetails false)
       (Event.pollResolve
         { statusRes := FetchResult.ok (some (bareStatus "completed")),
           resultRes := FetchResult.ok (some noResultData),
           fallbackRes := FetchResult.ok none })).comp.generationStatus = "completed" :=
  ⟨by decide,
   (c3_completed_unusable (mountSession defaultGenerationDetails false)
      (bareStatus "completed") (some noResultData)
      (by decide) rfl (by decide)).1⟩

/-- Claim C7 counterexample: the fallback is gated on the poll counter, not
on being chronologically the first poll.  From a fresh mount, the first poll
resolves `completed` with an unusable result — which leaves the poll counter
at zero — and then a second, later poll fails; its catch handler still
consults the direct result fallback and, finding a usable result, ends the
session `completed` with that result and no error ever surfaced.  This
refutes the claim that a failure on any later poll goes to `Error` without
the fallback.  The call log shows two status fetches — the failure was not
on the first poll — followed by the fallback result fetch. -/
theorem c7_counterexample :
    (run (mountSession defaultGenerationDetails false)
      [Event.pollResolve completedNoResultPoll,
       Event.pollStart false,
       Event.pollResolve
         { statusRes := FetchResult.err "network down",
           resultRes := FetchResult.ok none,
           fallbackRes := FetchResult.ok (some (textResultData "artifact")) }]).netLog
      = [NetCall.reloadCall, NetCall.statusCall, NetCall.resultCall,
         NetCall.reloadCall, NetCall.statusCall, NetCall.resultCall] ∧
    (run (mountSession defaultGenerationDetails false)
      [Event.pollResolve completedNoResultPoll,
       Event.pollStart false,
       Event.pollResolve
         { statusRes := FetchResult.err "network down",
           resultRes := FetchResult.ok none,
           fallbackRes :=
             FetchResult.ok (some (textResultData "artifact")) }]).comp.generationStatus
      = "completed" ∧
    (run (mountSession defaultGenerationDetails false)
      [Event.pollResolve completedNoResultPoll,
       Event.pollStart false,
       Event.pollResolve
         { statusRes := FetchResult.err "network down",
           resultRes := FetchResult.ok none,
           fallbackRes := FetchResult.ok (some (textResultData "artifact")) }]).comp.result
      = some "artifact" ∧
    (run (mountSession defaultGenerationDetails false)
      [Event.pollResolve completedNoResultPoll,
       Event.pollStart false,
       Event.pollResolve
         { statusRes := FetchResult.err "network down",
           resultRes := FetchResult.ok none,
           fallbackRes := FetchResult.ok (some (textResultData "artifact")) }]).comp.error
      = "" := by
  decide

/-- Claim C7 amended: the fallback recovery is keyed to the poll counter
being zero, not to the chronologically first poll — the counter advances
only when a poll resolves in the still-processing branch, so it can still be
zero on a later poll.  When the status fetch rejects while the poll counter
is zero and the direct result fetch returns a usable result, the session
ends with status `completed`, that result stored, the error message
untouched and polling halted; when the status fetch rejects while the poll
counter is nonzero the step is independent of the fallback outcome — the
fallback is not consulted — and the session surfaces the polling error and
halts. -/
theorem c7_first_poll_fallback (s : Session) (hin : s.inFlight ≠ 0) :
    (∀ (msg : String) (rres : FetchResult (Option ResultData)) (rd : ResultData),
       s.pollCount = 0 → rd.result.getD "" ≠ "" →
       (step s (Event.pollResolve
          { statusRes := FetchResult.err msg, resultRes := rres,
            fallbackRes := FetchResult.ok (some rd) })).comp.generationStatus
            = "completed" ∧
       (step s (Event.pollResolve
          { statusRes := FetchResult.err msg, resultRes := rres,
            fallbackRes := FetchResult.ok (some rd) })).comp.result = rd.result ∧
       (step s (Event.pollResolve
          { statusRes := FetchResult.err msg, resultRes := rres,
            fallbackRes := FetchResult.ok (some rd) })).comp.error = s.comp.error ∧
       (step s (Event.pollResolve
          { statusRes := FetchResult.err msg, resultRes := rres,
            fallbackRes := FetchResult.ok (some rd) })).intervalActive = false ∧
       (step s (Event.pollResolve
          { statusRes := FetchResult.err msg, resultRes := rres,
            fallbackRes := FetchResult.ok (some rd) })).comp.loading = false) ∧
    (∀ (msg : String) (rres : FetchResult (Option ResultData))
       (fb1 fb2 : FetchResult (Option ResultData)),
       s.pollCount ≠ 0 →
       step s (Event.pollResolve
           { statusRes := FetchResult.err msg, resultRes := rres, fallbackRes := fb1 })
         = step s (Event.pollResolve
           { statusRes := FetchResult.err msg, resultRes := rres, fallbackRes := fb2 }) ∧
       (step s (Event.pollResolve
           { statusRes := FetchResult.err msg, resultRes := rres,
             fallbackRes := fb1 })).comp.error
         = "Error checking generation status: " ++ errText msg ∧
       (step s (Event.pollResolve
           { statusRes := FetchResult.err msg, resultRes := rres,
             fallbackRes := fb1 })).intervalActive = false) := by
  have hne : ¬ s.inFlight = 0 := hin
  constructor
  · intro msg rres rd h0 huse
    simp only [step, if_neg hne, pollResolveStep, catchStep]
    simp [h0, huse, fallbackSuccess]
  · intro msg rres fb1 fb2 h0
    simp only [step, if_neg hne, pollResolveStep, catchStep]
    simp [h0, finishWithError]

/-- Claim C7 amended, witnessed: the fallback recovery while the counter is
zero and the fallback-free error once the counter has advanced. -/
theorem c7_first_poll_fallback_witness :
    (mountSession defaultGenerationDetails false).pollCount = 0 ∧
    (step (mountSession defaultGenerationDetails false)
       (Event.pollResolve
         { statusRes := FetchResult.err "network down",
           resultRes := FetchResult.ok none,
           fallbackRes := FetchResult.ok
             (some (textResultData "artifact")) })).comp.generationStatus
      = "completed" ∧
    (run (mountSession defaultGenerationDetails false)
       [Event.pollResolve (okStatusPoll "generating"),
        Event.pollStart false]).pollCount ≠ 0 ∧
    (step (run (mountSession defaultGenerationDetails false)
       [Event.pollResolve (okStatusPoll "generating"), Event.pollStart false])
       (Event.pollResolve
         { statusRes := FetchResult.err "boom", resultRes := FetchResult.ok none,
           fallbackRes := FetchResult.ok none })).comp.error
      = "Error checking generation status: " ++ errText "boom" :=
  ⟨by decide,
   ((c7_first_poll_fallback (mountSession defaultGenerationDetails false)
       (by decide)).1 "network down" (FetchResult.ok none)
     (textResultData "artifact") rfl (by decide)).1,
   by decide,
   ((c7_first_poll_fallback
       (run (mountSession defaultGenerationDetails false)
         [Event.pollResolve (okStatusPoll "generating"), Event.pollStart false])
       (by decide)).2 "boom" (FetchResult.ok none) (FetchResult.ok none)
     (FetchResult.ok none) (by decide)).2.1⟩

/-- Claim C10: in every descriptive-field merge, a `model` equal to the
literal string `unknown` is treated like an absent field and never
overwrites the previously known model, while `searchEngine` and `prompt`
overwrite exactly when present and non-empty. -/
theorem c10_merge_semantics :
    (∀ (dt : Details) (se p : Option String),
       mergeDetails dt (some "unknown") se p = mergeDetails dt none se p) ∧
    (∀ (dt : Details) (se p : Option String),
       (mergeDetails dt (some "unknown") se p).model = dt.model) ∧
    (∀ (dt : Details) (m p : Option String),
       (mergeDetails dt m none p).searchEngine = dt.searchEngine ∧
       (mergeDetails dt m (some "") p).searchEngine = dt.searchEngine) ∧
    (∀ (dt : Details) (m p : Option String) (s2 : String),
       s2 ≠ "" → (mergeDetails dt m (some s2) p).searchEngine = some s2) ∧
    (∀ (dt : Details) (m se : Option String),
       (mergeDetails dt m se none).prompt = dt.prompt ∧
       (mergeDetails dt m se (some "")).prompt = dt.prompt) ∧
    (∀ (dt : Details) (m se : Option String) (p2 : String),
       p2 ≠ "" → (mergeDetails dt m se (some p2)).prompt = p2) := by
  refine ⟨?_, ?_, ?_, ?_, ?_, ?_⟩
  · intro dt se p
    simp [mergeDetails]
  · intro dt se p
    rcases se with _ | s2 <;> rcases p with _ | p2 <;>
      simp [mergeDetails] <;> split_ifs <;> rfl
  · intro dt m p
    rcases m with _ | m2 <;> rcases p with _ | p2 <;>
      constructor <;> simp [mergeDetails] <;> split_ifs <;> rfl
  · intro dt m p s2 h
    rcases m with _ | m2 <;> rcases p with _ | p2 <;>
      simp [mergeDetails, h] <;> split_ifs <;> rfl
  · intro dt m se
    rcases m with _ | m2 <;> rcases se with _ | s2 <;> constructor <;>
      (simp only [mergeDetails]; all_goals split_ifs <;> simp_all)
  · intro dt m se p2 h
    rcases m with _ | m2 <;> rcases se with _ | s2 <;>
      (simp only [mergeDetails]; all_goals split_ifs <;> simp_all)

/-- Claim C10, witnessed on the default details. -/
theorem c10_merge_semantics_witness :
    ("google" : String) ≠ "" ∧
    (mergeDetails defaultGenerationDetails (some "unknown") (some "google") none).model
      = defaultGenerationDetails.model ∧
    (mergeDetails defaultGenerationDetails (some "unknown") (some "google")
        none).searchEngine = some "google" :=
  ⟨by decide,
   c10_merge_semantics.2.1 defaultGenerationDetails (some "google") none,
   c10_merge_semantics.2.2.2.1 defaultGenerationDetails (some "unknown") none "google"
     (by decide)⟩

theorem catchStep_warn (c : CState) (p : Nat) (i : Bool) (f st : Nat)
    (n : List NetCall) (w1 w2 : List String)
    (fb : FetchResult (Option ResultData)) (msg : String) :
    eraseWarnings (catchStep (Session.mk c p i f st n w1) fb msg) =
    eraseWarnings (catchStep (Session.mk c p i f st n w2) fb msg) := by
  rcases fb with ⟨_ | rd⟩ | m2 <;>
    (dsimp only [catchStep, finishWithError, fallbackSuccess, eraseWarnings];
     all_goals split_ifs <;> rfl)

theorem pollResolveStep_warn (c : CState) (p : Nat) (i : Bool) (f st : Nat)
    (n : List NetCall) (w1 w2 : List String) (o : PollOutcome) :
    eraseWarnings (pollResolveStep (Session.mk c p i f st n w1) o) =
    eraseWarnings (pollResolveStep (Session.mk c p i f st n w2) o) := by
  rcases o with ⟨sres, rres, fres⟩
  rcases sres with ⟨_ | d⟩ | msg
  · rfl
  · dsimp only [pollResolveStep]
    split_ifs
    · rcases rres with ⟨_ | rd⟩ | m
      · rfl
      · dsimp only [storeResult, eraseWarnings]
        split_ifs <;> rfl
      · exact catchStep_warn _ _ _ _ _ _ _ _ _ _
    · rfl
    · rfl
    · rfl
  · exact catchStep_warn _ _ _ _ _ _ _ _ _ _

theorem step_warn (c : CState) (p : Nat) (i : Bool) (f st : Nat)
    (n : List NetCall) (w1 w2 : List String) (e : Event) :
    eraseWarnings (step (Session.mk c p i f st n w1) e) =
    eraseWarnings (step (Session.mk c p i f st n w2) e) := by
  cases e with
  | pollStart rf =>
      dsimp only [step, pollStartStep, eraseWarnings]
      split_ifs <;> rfl
  | pollResolve o =>
      dsimp only [step]
      split_ifs
      · rfl
      · exact pollResolveStep_warn _ _ _ _ _ _ _ _ _
  | openStopDialog =>
      dsimp only [step, eraseWarnings]
      split_ifs <;> rfl
  | closeStopDialog =>
      dsimp only [step, eraseWarnings]
      split_ifs <;> rfl
  | stopClick =>
      dsimp only [step, eraseWarnings]
      split_ifs <;> rfl
  | stopResolve success msg =>
      dsimp only [step, eraseWarnings]
      split_ifs <;> rfl

theorem eraseWarnings_step_congr {a b : Session}
    (h : eraseWarnings a = eraseWarnings b) (e : Event) :
    eraseWarnings (step a e) = eraseWarnings (step b e) := by
  obtain ⟨ac, ap, ai, af, a5, an, aw⟩ := a
  obtain ⟨bc, bp, bi, bf, b5, bn, bw⟩ := b
  dsimp only [eraseWarnings] at h
  injection h with h1 h2 h3 h4 h5 h6 h7
  subst h1; subst h2; subst h3; subst h4; subst h5; subst h6
  exact step_warn _ _ _ _ _ _ _ _ _

theorem pollStartStep_rf_warn (s : Session) (rf1 rf2 : Bool) :
    eraseWarnings (pollStartStep s rf1) = eraseWarnings (pollStartStep s rf2) := by
  dsimp only [pollStartStep, eraseWarnings]
  split_ifs <;> rfl

theorem step_pollStart_rf (s : Session) (rf1 rf2 : Bool) :
    eraseWarnings (step s (Event.pollStart rf1)) =
    eraseWarnings (step s (Event.pollStart rf2)) := by
  dsimp only [step]
  split_ifs
  · exact pollStartStep_rf_warn s rf1 rf2
  · rfl

/-- Claim C9: on the first poll the task-reload preamble is issued before
the status fetch, and a failing preamble is absorbed — apart from console
output, the session after starting the poll (and after any subsequent
resolution) is identical whether or not the reload failed; in particular no
error is produced, the interval is untouched and the poll proceeds. -/
theorem c9_reload_preamble (s : Session) :
    (∀ o : PollOutcome,
       eraseWarnings (step (step s (Event.pollStart true)) (Event.pollResolve o)) =
       eraseWarnings (step (step s (Event.pollStart false)) (Event.pollResolve o))) ∧
    eraseWarnings (step s (Event.pollStart true)) =
      eraseWarnings (step s (Event.pollStart false)) ∧
    (step s (Event.pollStart true)).comp.error = s.comp.error ∧
    (step s (Event.pollStart true)).intervalActive = s.intervalActive ∧
    (s.intervalActive = true → s.pollCount = 0 →
       (step s (Event.pollStart true)).netLog =
         s.netLog ++ [NetCall.reloadCall, NetCall.statusCall] ∧
       (step s (Event.pollStart true)).inFlight = s.inFlight + 1) := by
  refine ⟨?_, step_pollStart_rf s true false, ?_, ?_, ?_⟩
  · intro o
    exact eraseWarnings_step_congr (step_pollStart_rf s true false) (Event.pollResolve o)
  · dsimp only [step, pollStartStep]
    split_ifs <;> rfl
  · dsimp only [step, pollStartStep]
    split_ifs <;> rfl
  · intro h1 h2
    simp [step, pollStartStep, h1, h2]

/-- Claim C9, witnessed right after mount, where the poll counter is still
zero. -/
theorem c9_reload_preamble_witness :
    (mountSession defaultGenerationDetails false).intervalActive = true ∧
    (mountSession defaultGenerationDetails false).pollCount = 0 ∧
    (step (mountSession defaultGenerationDetails false) (Event.pollStart true)).netLog
      = (mountSession defaultGenerationDetails false).netLog
          ++ [NetCall.reloadCall, NetCall.statusCall] :=
  ⟨by decide, by decide,
   ((c9_reload_preamble (mountSession defaultGenerationDetails false)).2.2.2.2
      (by decide) (by decide)).1⟩

theorem inv_step (s : Session) (e : Event)
    (h1 : s.comp.generationStatus = "generating" → s.comp.progress < 100)
    (h2 : s.comp.generationStatus = "completed" → s.comp.progress = 100) :
    ((step s e).comp.generationStatus = "generating" → (step s e).comp.progress < 100) ∧
    ((step s e).comp.generationStatus = "completed" → (step s e).comp.progress = 100) := by
  cases e with
  | pollStart rf =>
      dsimp only [step, pollStartStep]
      split_ifs <;> exact ⟨h1, h2⟩
  | openStopDialog =>
      dsimp only [step]
      split_ifs <;> exact ⟨h1, h2⟩
  | closeStopDialog =>
      dsimp only [step]
      split_ifs <;> exact ⟨h1, h2⟩
  | stopClick =>
      dsimp only [step]
      split_ifs <;> exact ⟨h1, h2⟩
  | stopResolve success msg =>
      dsimp only [step]
      split_ifs
      · exact ⟨h1, h2⟩
      · exact ⟨fun hx => absurd (show ("stopped" : String) = "generating" from hx) (by decide),
               fun hx => absurd (show ("stopped" : String) = "completed" from hx) (by decide)⟩
      · exact ⟨h1, h2⟩
  | pollResolve o =>
      rcases o with ⟨sres, rres, fres⟩
      dsimp only [step]
      split_ifs
      · exact ⟨h1, h2⟩
      · rcases sres with ⟨_ | d⟩ | msg
        · exact ⟨h1, h2⟩
        · dsimp only [pollResolveStep]
          split_ifs with hc he hs
          · -- the completed branch: the status is set to completed and the
            -- progress pinned to 100 before the result fetch is examined
            rcases rres with ⟨_ | rd⟩ | m
            · refine ⟨fun hx => ?_, fun _ => rfl⟩
              rw [applyStatusData_generationStatus, hc] at hx
              exact absurd hx (by decide)
            · dsimp only [storeResult]
              split_ifs
              · refine ⟨fun hx => ?_, fun _ => rfl⟩
                rw [applyStatusData_generationStatus, hc] at hx
                exact absurd hx (by decide)
              · refine ⟨fun hx => ?_, fun _ => rfl⟩
                rw [applyStatusData_generationStatus, hc] at hx
                exact absurd hx (by decide)
            · dsimp only [catchStep, finishWithError, fallbackSuccess]
              rcases fres with ⟨_ | rd2⟩ | m2 <;> dsimp only <;> split_ifs <;>
                refine ⟨fun hx => ?_, fun _ => rfl⟩ <;>
                first
                  | exact absurd (show ("completed" : String) = "generating" from hx)
                      (by decide)
                  | (rw [applyStatusData_generationStatus, hc] at hx;
                     exact absurd hx (by decide))
          · refine ⟨fun hx => ?_, fun hx => ?_⟩ <;>
              (rw [applyStatusData_generationStatus, he] at hx;
               exact absurd hx (by decide))
          · refine ⟨fun hx => ?_, fun hx => ?_⟩ <;>
              (rw [applyStatusData_generationStatus, hs] at hx;
               exact absurd hx (by decide))
          · refine ⟨fun _ => estimate_lt_100 _, fun hx => ?_⟩
            rw [applyStatusData_generationStatus] at hx
            exact absurd hx hc
        · dsimp only [pollResolveStep, catchStep, finishWithError, fallbackSuccess]
          rcases fres with ⟨_ | rd2⟩ | m2 <;> dsimp only <;> split_ifs <;>
            first
              | exact ⟨h1, h2⟩
              | exact ⟨fun hx => absurd (show ("completed" : String) = "generating" from hx)
                         (by decide),
                       fun _ => rfl⟩

theorem inv_reachable (s : Session) (h : Reachable s) :
    (s.comp.generationStatus = "generating" → s.comp.progress < 100) ∧
    (s.comp.generationStatus = "completed" → s.comp.progress = 100) := by
  induction h with
  | init d0 rf =>
      cases rf <;>
        exact ⟨fun _ => by show (0 : ℚ) < 100; norm_num,
               fun hx => absurd (show ("generating" : String) = "completed" from hx)
                 (by decide)⟩
  | next e _ ih => exact inv_step _ e ih.1 ih.2

theorem progress_frozen_step (s : Session) (e : Event)
    (h : (step s e).comp.generationStatus = "error" ∨
         (step s e).comp.generationStatus = "stopped") :
    (step s e).comp.progress = s.comp.progress := by
  cases e with
  | pollStart rf =>
      dsimp only [step, pollStartStep]
      split_ifs <;> rfl
  | openStopDialog =>
      dsimp only [step]
      split_ifs <;> rfl
  | closeStopDialog =>
      dsimp only [step]
      split_ifs <;> rfl
  | stopClick =>
      dsimp only [step]
      split_ifs <;> rfl
  | stopResolve success msg =>
      dsimp only [step]
      split_ifs <;> rfl
  | pollResolve o =>
      rcases o with ⟨sres, rres, fres⟩
      dsimp only [step] at h ⊢
      split_ifs at h ⊢
      · rfl
      · rcases sres with ⟨_ | d⟩ | msg
        · rfl
        · dsimp only [pollResolveStep] at h ⊢
          split_ifs at h ⊢ with hc he hs
          · rcases rres with ⟨_ | rd⟩ | m
            · try dsimp only at h ⊢
              rw [applyStatusData_generationStatus, hc] at h
              rcases h with h | h <;> exact absurd h (by decide)
            · dsimp only [storeResult] at h ⊢
              split_ifs at h ⊢ <;> (try dsimp only at h ⊢) <;>
                (rw [applyStatusData_generationStatus, hc] at h;
                 rcases h with h | h <;> exact absurd h (by decide))
            · dsimp only [catchStep, finishWithError, fallbackSuccess] at h ⊢
              rcases fres with ⟨_ | rd2⟩ | m2 <;> (try dsimp only at h ⊢) <;>
                split_ifs at h ⊢ <;> (try dsimp only at h ⊢) <;>
                first
                  | (rcases h with h | h <;> exact absurd h (by decide))
                  | (rw [applyStatusData_generationStatus, hc] at h;
                     rcases h with h | h <;> exact absurd h (by decide))
          · exact (applyStatusData_other s.comp d).1
          · exact (applyStatusData_other s.comp d).1
          · try dsimp only at h ⊢
            rw [applyStatusData_generationStatus] at h
            rcases h with h | h
            · exact absurd h he
            · exact absurd h hs
        · dsimp only [pollResolveStep, catchStep, finishWithError, fallbackSuccess]
            at h ⊢
          rcases fres with ⟨_ | rd2⟩ | m2
          all_goals try dsimp only at h ⊢
          all_goals split_ifs at h ⊢
          all_goals try dsimp only at h ⊢
          all_goals
            first
              | rfl
              | (rcases h with h | h <;> exact absurd h (by decide))

theorem progress_to_100_step (s : Session) (e : Event)
    (hne : (step s e).comp.progress ≠ s.comp.progress)
    (h100 : (step s e).comp.progress = 100) :
    (step s e).comp.generationStatus = "completed" := by
  cases e with
  | pollStart rf =>
      dsimp only [step, pollStartStep] at hne
      split_ifs at hne <;> exact absurd rfl hne
  | openStopDialog =>
      dsimp only [step] at hne
      split_ifs at hne <;> exact absurd rfl hne
  | closeStopDialog =>
      dsimp only [step] at hne
      split_ifs at hne <;> exact absurd rfl hne
  | stopClick =>
      dsimp only [step] at hne
      split_ifs at hne <;> exact absurd rfl hne
  | stopResolve success msg =>
      dsimp only [step] at hne
      split_ifs at hne <;> exact absurd rfl hne
  | pollResolve o =>
      rcases o with ⟨sres, rres, fres⟩
      dsimp only [step] at hne h100 ⊢
      split_ifs at hne h100 ⊢
      · exact absurd rfl hne
      · rcases sres with ⟨_ | d⟩ | msg
        · exact absurd rfl hne
        · dsimp only [pollResolveStep] at hne h100 ⊢
          split_ifs at hne h100 ⊢ with hc he hs
          · rcases rres with ⟨_ | rd⟩ | m
            · try dsimp only at hne h100 ⊢
              rw [applyStatusData_generationStatus]
              exact hc
            · dsimp only [storeResult] at hne h100 ⊢
              split_ifs at hne h100 ⊢ <;> (try dsimp only at hne h100 ⊢) <;>
                (rw [applyStatusData_generationStatus]; exact hc)
            · dsimp only [catchStep, finishWithError, fallbackSuccess] at hne h100 ⊢
              rcases fres with ⟨_ | rd2⟩ | m2 <;> (try dsimp only at hne h100 ⊢) <;>
                split_ifs at hne h100 ⊢ <;> (try dsimp only at hne h100 ⊢) <;>
                first
                  | rfl
                  | (rw [applyStatusData_generationStatus]; exact hc)
          · exact absurd (applyStatusData_other s.comp d).1 hne
          · exact absurd (applyStatusData_other s.comp d).1 hne
          · exact absurd h100 (ne_of_lt (estimate_lt_100 _))
        · dsimp only [pollResolveStep, catchStep, finishWithError, fallbackSuccess]
            at hne h100 ⊢
          rcases fres with ⟨_ | rd2⟩ | m2 <;> (try dsimp only at hne h100 ⊢) <;>
            split_ifs at hne h100 ⊢ <;> (try dsimp only at hne h100 ⊢) <;>
            first
              | rfl
              | exact absurd rfl hne

/-- Claim C5: in every reachable session the exposed progress is strictly
below 100 while the exposed status is `generating` and is exactly 100
whenever the exposed status is `completed`; a step whose resulting status is
`error` or `stopped` leaves the progress frozen; and any step that changes
the progress to 100 lands in status `completed`. -/
theorem c5_progress_invariant :
    (∀ s : Session, Reachable s →
       (s.comp.generationStatus = "generating" → s.comp.progress < 100) ∧
       (s.comp.generationStatus = "completed" → s.comp.progress = 100)) ∧
    (∀ (s : Session) (e : Event),
       (step s e).comp.generationStatus = "error" ∨
         (step s e).comp.generationStatus = "stopped" →
       (step s e).comp.progress = s.comp.progress) ∧
    (∀ (s : Session) (e : Event),
       (step s e).comp.progress ≠ s.comp.progress →
       (step s e).comp.progress = 100 →
       (step s e).comp.generationStatus = "completed") :=
  ⟨inv_reachable, progress_frozen_step, progress_to_100_step⟩

/-- Claim C5, witnessed at a fresh mount and on a concrete stop-reporting
poll. -/
theorem c5_progress_invariant_witness :
    (mountSession defaultGenerationDetails false).comp.progress < 100 ∧
    (step (mountSession defaultGenerationDetails false)
       (Event.pollResolve (okStatusPoll "stopped"))).comp.progress
      = (mountSession defaultGenerationDetails false).comp.progress :=
  ⟨(c5_progress_invariant.1 (mountSession defaultGenerationDetails false)
      (Reachable.init defaultGenerationDetails false)).1 rfl,
   c5_progress_invariant.2.1 (mountSession defaultGenerationDetails false)
     (Event.pollResolve (okStatusPoll "stopped")) (Or.inr (by decide))⟩

end ResultsMonitor
